import Mathlib

/-!
# hns userspace provider: mmap offsets, DCA pool parameters, context construction

A shallow embedding of `providers/hns/hns_roce_u.c`.

* Machine integers are natural numbers or integers, reduced modulo `2 ^ w` at the
  places where the C code stores into a field of width `w`.
* Calls into the kernel or libc that may fail take their outcome from an explicit
  environment record `Env`.
* Acquire and release actions are recorded, in program order, as a list of `Effect`s.
* Names that the C file takes from its headers (constants and field widths) are the
  fields of the parameter record `Header`.
-/

namespace HnsRoce

/-! ## Names taken from the headers -/

/-- Constants and field widths which `hns_roce_u.c` uses but which are declared in its
headers (`hns_roce_u.h`, `hnsdv.h`, `hns-abi.h`). The translated file does not contain
them, so every definition below takes them as a parameter. -/
structure Header where
  HNSDV_CONTEXT_FLAGS_DCA : Nat
  HNSDV_CONTEXT_MASK_DCA_PRIME_QPS : Nat
  HNSDV_CONTEXT_MASK_DCA_UNIT_SIZE : Nat
  HNSDV_CONTEXT_MASK_DCA_MAX_SIZE : Nat
  HNSDV_CONTEXT_MASK_DCA_MIN_SIZE : Nat
  HNS_DCA_DEFAULT_UNIT_PAGES : Nat
  /-- value of `HNS_DCA_MAX_MEM_SIZE` in the type of `max_size` and `min_size` -/
  HNS_DCA_MAX_MEM_SIZE : Nat
  HNS_DCA_BITS_PER_STATUS : Nat
  HNS_ROCE_CQE_SIZE : Nat
  HNS_ROCE_V3_CQE_SIZE : Nat
  HNS_ROCE_QP_TABLE_BITS : Nat
  HNS_ROCE_SRQ_TABLE_BITS : Nat
  HNS_ROCE_QP_TABLE_SIZE : Nat
  HNS_ROCE_SRQ_TABLE_SIZE : Nat
  HNS_ROCE_HW_VER1 : Nat
  HNS_ROCE_CAP_FLAG_DCA_MODE : Nat
  HNS_ROCE_MMAP_REGULAR_PAGE : Int
  HNS_ROCE_MMAP_DCA_PAGE : Int
  HNS_ROCE_ALLOC_UCTX_COMP_DCA_MAX_QPS : Nat
  /-- number of bits of the field `unit_size` of `struct hns_roce_dca_ctx` -/
  unit_size_bits : Nat
  /-- number of bits of the fields `max_size` and `min_size`, and of the attribute
  fields `dca_max_size` and `dca_min_size` they are computed from -/
  mem_size_bits : Nat

/-- The header values of the hns provider: `unit_size` is an `unsigned int`, the pool
bounds are `uint64_t`, the sentinel is `~0UL`, the comp-mask bits are `1 << 0` to
`1 << 3`, the default unit is 16 pages, CQE sizes are 32 and 64 bytes and
both tables use 8 index bits. Used to instantiate `Header` at concrete inputs. -/
def hns_header : Header where
  HNSDV_CONTEXT_FLAGS_DCA := 1
  HNSDV_CONTEXT_MASK_DCA_PRIME_QPS := 1
  HNSDV_CONTEXT_MASK_DCA_UNIT_SIZE := 2
  HNSDV_CONTEXT_MASK_DCA_MAX_SIZE := 4
  HNSDV_CONTEXT_MASK_DCA_MIN_SIZE := 8
  HNS_DCA_DEFAULT_UNIT_PAGES := 16
  HNS_DCA_MAX_MEM_SIZE := 2 ^ 64 - 1
  HNS_DCA_BITS_PER_STATUS := 1
  HNS_ROCE_CQE_SIZE := 0x20
  HNS_ROCE_V3_CQE_SIZE := 0x40
  HNS_ROCE_QP_TABLE_BITS := 8
  HNS_ROCE_SRQ_TABLE_BITS := 8
  HNS_ROCE_QP_TABLE_SIZE := 256
  HNS_ROCE_SRQ_TABLE_SIZE := 256
  HNS_ROCE_HW_VER1 := 0x68693036
  HNS_ROCE_CAP_FLAG_DCA_MODE := 2 ^ 15
  HNS_ROCE_MMAP_REGULAR_PAGE := 0
  HNS_ROCE_MMAP_DCA_PAGE := 1
  HNS_ROCE_ALLOC_UCTX_COMP_DCA_MAX_QPS := 2
  unit_size_bits := 32
  mem_size_bits := 64

/-- The errno value `EINVAL`. -/
def EINVAL : Int := 22

/-- The value `MAP_FAILED` of sys/mman.h, the pointer `(void *) -1` as a 64-bit address. -/
def MAP_FAILED : Nat := 2 ^ 64 - 1

/-- Modelled from the spec: `align` is defined in `util/util.h`, which is not part of
the translated file; the spec says the unit size is "the caller-requested size rounded
up to the page size". -/
def align (val al : Nat) : Nat := (val + al - 1) / al * al

/-- Modelled from the spec: the macro `DIV_ROUND_UP` is defined outside the translated
file; the spec says the bounds are the "requested size rounded up to a unit-size
multiple", which is `DIV_ROUND_UP(n, d) * d`. The sum is taken in unsigned arithmetic
of `bits` bits, the width of its operands at the place of use. -/
def DIV_ROUND_UP (bits n d : Nat) : Nat := ((n + d - 1) % 2 ^ bits) / d

/-- Helper of `ffs`: position (counted from 1) of the lowest set bit among the lowest
`width` bits of `n`, or 0 when none of them is set. -/
def ffs_aux : Nat → Nat → Nat
  | 0, _ => 0
  | width + 1, n =>
    if n % 2 = 1 then 1
    else if ffs_aux width (n / 2) = 0 then 0
    else ffs_aux width (n / 2) + 1

/-- The libc function `int ffs(int i)`: the position of the least significant set bit of
the 32-bit word `i`, the least significant bit being position 1, and 0 when `i` is 0. -/
def ffs (i : Nat) : Nat := ffs_aux 32 i

/-! ## Offset codec (lines 98-118) -/

/-- Source function `hns_roce_mmap_set_command`: `*offset |= (command & 0xff) << 8`. For an `int` in
two's complement `command & 0xff` is `command` modulo 256. The offset is the 64-bit
pattern of the `off_t`. -/
def hns_roce_mmap_set_command (command : Int) (offset : Nat) : Nat :=
  offset ||| ((command % 256).toNat <<< 8)

/-- Source function `hns_roce_mmap_set_index`: `*offset |= (index & 0xff) | ((index >> 8) << 16)`, the
right-hand side computed in `unsigned long` (64 bits). -/
def hns_roce_mmap_set_index (index : Nat) (offset : Nat) : Nat :=
  offset ||| (((index &&& 0xff) ||| ((index >>> 8) <<< 16)) % 2 ^ 64)

/-- The local `offset` of `get_uar_mmap_offset` after both setters ran, before it is
multiplied by the page size. -/
def uar_offset (idx : Nat) (cmd : Int) : Nat :=
  hns_roce_mmap_set_index idx (hns_roce_mmap_set_command cmd 0)

/-- Source function `get_uar_mmap_offset`: `offset * page_size`, as a 64-bit pattern. -/
def get_uar_mmap_offset (idx : Nat) (page_size : Nat) (cmd : Int) : Nat :=
  (uar_offset idx cmd * page_size) % 2 ^ 64

/-- Decoder named by the specification: the command is `offset[15:8]`. -/
def offset_command (offset : Nat) : Nat := (offset >>> 8) &&& 0xff

/-- Decoder named by the specification: the index is `offset[63:16] | offset[7:0]`, the
high segment being the index bits above bit 7. -/
def offset_index (offset : Nat) : Nat := (offset &&& 0xff) ||| ((offset >>> 16) <<< 8)

/-! ## Data model -/

/-- The fields of `struct hnsdv_context_attr` read by this file. -/
structure hnsdv_context_attr where
  flags : Nat
  comp_mask : Nat
  dca_prime_qps : Nat
  dca_unit_size : Nat
  dca_max_size : Nat
  dca_min_size : Nat
deriving DecidableEq

/-- The `struct hns_roce_dca_ctx` of a context. Pointers are addresses, 0 being NULL;
`mem_list` is the list of held segments. -/
structure hns_roce_dca_ctx where
  mem_list : List Nat
  mem_cnt : Int
  unit_size : Nat
  max_size : Nat
  min_size : Nat
  max_qps : Int
  status_size : Nat
  buf_status : Nat
  sync_status : Nat
deriving DecidableEq

/-- The fields of `struct hns_roce_context` written by this file. A table mask is `none`
when C leaves `1 << shift` undefined (negative shift, or a shift past the sign bit). -/
structure hns_roce_context where
  cqe_size : Nat
  cap_flags : Nat
  num_qps : Nat
  num_srqs : Nat
  qp_table_shift : Int
  qp_table_mask : Option Int
  qp_table_refcnt : List Int
  srq_table_shift : Int
  srq_table_mask : Option Int
  srq_table_refcnt : List Int
  max_qp_wr : Int
  max_sge : Int
  max_cqe : Int
  max_srq_wr : Int
  max_srq_sge : Int
  uar : Nat
  cq_tptr_base : Nat
  dca_ctx : hns_roce_dca_ctx
deriving DecidableEq

/-- The fields of `struct hns_roce_device` used by this file. -/
structure hns_roce_device where
  hw_version : Nat
  page_size : Nat
deriving DecidableEq

/-- The response of the kernel to the context allocation command. `dca_qps` and
`dca_mmap_size` are given as the `int` values `init_dca_context` receives. -/
structure hns_roce_alloc_ucontext_resp where
  cqe_size : Nat
  cap_flags : Nat
  qp_tab_size : Nat
  srq_tab_size : Nat
  dca_qps : Int
  dca_mmap_size : Int
deriving DecidableEq

/-- The fields of the command `struct hns_roce_alloc_ucontext` set by this file. -/
structure hns_roce_alloc_ucontext where
  comp : Nat
  dca_max_qps : Nat
deriving DecidableEq

/-- The fields of `struct ibv_device_attr` copied into the context. -/
structure ibv_device_attr where
  hw_ver : Nat
  max_qp_wr : Int
  max_sge : Int
  max_cqe : Int
  max_srq_wr : Int
  max_srq_sge : Int
deriving DecidableEq

/-- Outcomes of the fallible calls made while a context is constructed. -/
structure Env where
  /-- whether `verbs_init_and_alloc_context` returned a context -/
  alloc_ok : Bool
  /-- return value of `ibv_cmd_get_context` -/
  get_context_ret : Int
  resp : hns_roce_alloc_ucontext_resp
  /-- return value of `hns_roce_u_query_device` -/
  query_device_ret : Int
  dev_attrs : ibv_device_attr
  /-- return value of `pthread_spin_init` on the DCA lock -/
  dca_spin_init_ret : Int
  /-- result of the `mmap` of the DCA status bitmap -/
  mmap_dca_ret : Nat
  /-- result of the `mmap` of the doorbell page -/
  mmap_uar_ret : Nat
  /-- result of the `mmap` of the legacy CQ pointer region -/
  mmap_cq_tptr_ret : Nat
deriving DecidableEq

/-- Acquire and release actions of context construction and teardown. The constructors
named after a function of this file mark the call of that function; the three `mmap`
constructors carry the file offset passed to `mmap`, and `ibv_cmd_get_context` carries
the command sent to the kernel. -/
inductive Effect where
  | verbs_init_and_alloc_context
  | ibv_cmd_get_context (cmd : hns_roce_alloc_ucontext)
  | pthread_mutex_init_qp_table
  | pthread_mutex_init_srq_table
  | hns_roce_u_query_device
  | pthread_spin_init_uar_lock
  | verbs_set_ops
  | init_dca_context
  | pthread_spin_init_dca_lock
  | mmap_dca (offset : Nat)
  | hns_roce_mmap
  | mmap_uar (offset : Nat)
  | mmap_cq_tptr_base (offset : Nat)
  | munmap_uar
  | munmap_cq_tptr_base
  | uninit_dca_context
  | pthread_spin_lock_dca_lock
  | hns_roce_cleanup_dca_mem
  | pthread_spin_unlock_dca_lock
  | munmap_buf_status
  | pthread_spin_destroy_dca_lock
  | verbs_uninit_context
  | free_context
deriving DecidableEq

/-- The context as `verbs_init_and_alloc_context` hands it over: zero-initialised. -/
def zero_context : hns_roce_context where
  cqe_size := 0
  cap_flags := 0
  num_qps := 0
  num_srqs := 0
  qp_table_shift := 0
  qp_table_mask := some 0
  qp_table_refcnt := []
  srq_table_shift := 0
  srq_table_mask := some 0
  srq_table_refcnt := []
  max_qp_wr := 0
  max_sge := 0
  max_cqe := 0
  max_srq_wr := 0
  max_srq_sge := 0
  uar := 0
  cq_tptr_base := 0
  dca_ctx :=
    { mem_list := [], mem_cnt := 0, unit_size := 0, max_size := 0, min_size := 0,
      max_qps := 0, status_size := 0, buf_status := 0, sync_status := 0 }

/-! ## DCA pool (lines 120-226) -/

/-- Source function `mmap_dca`: maps the status bitmap at the offset of index 0 and
command `HNS_ROCE_MMAP_DCA_PAGE`; on `MAP_FAILED` (the outcome `env.mmap_dca_ret`) it
returns `-EINVAL` and leaves the pool untouched, otherwise it records both bitmap
halves. -/
def mmap_dca (hdr : Header) (env : Env) (dca_ctx : hns_roce_dca_ctx) (page_size : Nat)
    (size : Nat) : Int × hns_roce_dca_ctx × List Effect :=
  let addr := env.mmap_dca_ret
  let t := [Effect.mmap_dca (get_uar_mmap_offset 0 page_size hdr.HNS_ROCE_MMAP_DCA_PAGE)]
  if addr = MAP_FAILED then (-EINVAL, dca_ctx, t)
  else (0, { dca_ctx with buf_status := addr, sync_status := addr + size / 2 }, t)

/-- Source function `set_dca_pool_param`. Stores into `unit_size`, `max_size` and
`min_size` are reduced to the width of the field. -/
def set_dca_pool_param (hdr : Header) (attr : hnsdv_context_attr) (page_size : Nat)
    (ctx : hns_roce_dca_ctx) : hns_roce_dca_ctx :=
  let ctx :=
    if attr.comp_mask &&& hdr.HNSDV_CONTEXT_MASK_DCA_UNIT_SIZE ≠ 0 then
      { ctx with unit_size := align attr.dca_unit_size page_size % 2 ^ hdr.unit_size_bits }
    else
      { ctx with
        unit_size := (page_size * hdr.HNS_DCA_DEFAULT_UNIT_PAGES) % 2 ^ hdr.unit_size_bits }
  if ctx.unit_size = 0 then ctx
  else
    let ctx :=
      if attr.comp_mask &&& hdr.HNSDV_CONTEXT_MASK_DCA_MAX_SIZE ≠ 0 then
        { ctx with
          max_size := (DIV_ROUND_UP hdr.mem_size_bits attr.dca_max_size ctx.unit_size
            * ctx.unit_size) % 2 ^ hdr.mem_size_bits }
      else { ctx with max_size := hdr.HNS_DCA_MAX_MEM_SIZE }
    if attr.comp_mask &&& hdr.HNSDV_CONTEXT_MASK_DCA_MIN_SIZE ≠ 0 then
      { ctx with
        min_size := (DIV_ROUND_UP hdr.mem_size_bits attr.dca_min_size ctx.unit_size
          * ctx.unit_size) % 2 ^ hdr.mem_size_bits }
    else { ctx with min_size := hdr.HNS_DCA_MAX_MEM_SIZE }

/-- Source function `init_dca_context`. It returns the return value, the context and
the effects performed. `attr = none` is the NULL attribute pointer. -/
def init_dca_context (hdr : Header) (env : Env) (ctx : hns_roce_context)
    (page_size : Nat) (attr : Option hnsdv_context_attr) (max_qps mmap_size : Int) :
    Int × hns_roce_context × List Effect :=
  let dca_ctx := { ctx.dca_ctx with unit_size := 0, mem_cnt := 0, mem_list := [] }
  let ret := env.dca_spin_init_ret
  if ret ≠ 0 then
    (ret, { ctx with dca_ctx := dca_ctx }, [Effect.pthread_spin_init_dca_lock])
  else
    match attr with
    | none => (0, { ctx with dca_ctx := dca_ctx }, [Effect.pthread_spin_init_dca_lock])
    | some attr =>
      if attr.flags &&& hdr.HNSDV_CONTEXT_FLAGS_DCA = 0 then
        (0, { ctx with dca_ctx := dca_ctx }, [Effect.pthread_spin_init_dca_lock])
      else
        let dca_ctx := set_dca_pool_param hdr attr page_size dca_ctx
        if mmap_size > 0 then
          let bits_per_qp : Nat := 2 * hdr.HNS_DCA_BITS_PER_STATUS
          let r := mmap_dca hdr env dca_ctx page_size mmap_size.toNat
          if r.1 = 0 then
            (0,
              { ctx with
                dca_ctx :=
                  { r.2.1 with
                    status_size := mmap_size.toNat
                    max_qps := min max_qps (mmap_size * 8 / (bits_per_qp : Int)) } },
              Effect.pthread_spin_init_dca_lock :: r.2.2)
          else
            (0, { ctx with dca_ctx := r.2.1 }, Effect.pthread_spin_init_dca_lock :: r.2.2)
        else (0, { ctx with dca_ctx := dca_ctx }, [Effect.pthread_spin_init_dca_lock])

/-- Source function `uninit_dca_context`: the effects it performs on a context. -/
def uninit_dca_context (hdr : Header) (ctx : hns_roce_context) : List Effect :=
  if ctx.cap_flags &&& hdr.HNS_ROCE_CAP_FLAG_DCA_MODE = 0 then []
  else
    [Effect.pthread_spin_lock_dca_lock, Effect.hns_roce_cleanup_dca_mem,
      Effect.pthread_spin_unlock_dca_lock]
    ++ (if ctx.dca_ctx.buf_status ≠ 0 then [Effect.munmap_buf_status] else [])
    ++ [Effect.pthread_spin_destroy_dca_lock]

/-! ## Mapping of the doorbell regions (lines 228-259) -/

/-- Source function `hns_roce_mmap`. The results of the two `mmap` calls come from the
environment; the doorbell page is mapped at the offset of index 0, the legacy CQ pointer
region at the offset of index 1, both with command `HNS_ROCE_MMAP_REGULAR_PAGE`. The
second call is made on hardware version 1 only, and its failure unmaps the doorbell
page before `-EINVAL` is returned. -/
def hns_roce_mmap (hdr : Header) (env : Env) (hr_dev : hns_roce_device)
    (context : hns_roce_context) : Int × hns_roce_context × List Effect :=
  let page_size := hr_dev.page_size
  let offset := get_uar_mmap_offset 0 page_size hdr.HNS_ROCE_MMAP_REGULAR_PAGE
  let context := { context with uar := env.mmap_uar_ret }
  if context.uar = MAP_FAILED then (-EINVAL, context, [Effect.mmap_uar offset])
  else
    let offset1 := get_uar_mmap_offset 1 page_size hdr.HNS_ROCE_MMAP_REGULAR_PAGE
    if hr_dev.hw_version = hdr.HNS_ROCE_HW_VER1 then
      let context := { context with cq_tptr_base := env.mmap_cq_tptr_ret }
      if context.cq_tptr_base = MAP_FAILED then
        (-EINVAL, context,
          [Effect.mmap_uar offset, Effect.mmap_cq_tptr_base offset1, Effect.munmap_uar])
      else (0, context, [Effect.mmap_uar offset, Effect.mmap_cq_tptr_base offset1])
    else (0, context, [Effect.mmap_uar offset])

/-! ## Context construction and teardown (lines 273-370) -/

/-- Source function `ucontext_set_cmd`: with DCA enabled and the prime-QPs mask bit set
the command asks the kernel for the DCA QP limit. -/
def ucontext_set_cmd (hdr : Header) (cmd : hns_roce_alloc_ucontext)
    (attr : Option hnsdv_context_attr) : hns_roce_alloc_ucontext :=
  match attr with
  | none => cmd
  | some attr =>
    if attr.flags &&& hdr.HNSDV_CONTEXT_FLAGS_DCA = 0 then cmd
    else if attr.comp_mask &&& hdr.HNSDV_CONTEXT_MASK_DCA_PRIME_QPS ≠ 0 then
      { cmd with
        comp := hdr.HNS_ROCE_ALLOC_UCTX_COMP_DCA_MAX_QPS
        dca_max_qps := attr.dca_prime_qps }
    else cmd

/-- Lines 294-299 of `hns_roce_alloc_context`: the CQE size stored in the context for a
reported `resp.cqe_size`. -/
def derive_cqe_size (hdr : Header) (resp_cqe_size : Nat) : Nat :=
  if resp_cqe_size = 0 then hdr.HNS_ROCE_CQE_SIZE
  else if resp_cqe_size ≤ hdr.HNS_ROCE_V3_CQE_SIZE then resp_cqe_size
  else hdr.HNS_ROCE_V3_CQE_SIZE

/-- Lines 306-307 and 313-314: `ffs(num) - 1 - TABLE_BITS`, an `int`. -/
def table_shift (num table_bits : Nat) : Int := (ffs num : Int) - 1 - (table_bits : Int)

/-- Lines 308 and 315: `(1 << shift) - 1` on `int`; `none` where C leaves the shift
undefined. -/
def table_mask (shift : Int) : Option Int :=
  if 0 ≤ shift ∧ shift < 31 then some (((1 <<< shift.toNat : Nat) : Int) - 1) else none

/-- What `hns_roce_alloc_context` leaves behind: the returned context (`none` for
NULL), the device, the effects performed before a jump to an unwind label (or before
the successful return), and the effects performed from the unwind label on. -/
structure AllocResult where
  ret : Option hns_roce_context
  hr_dev : hns_roce_device
  construct : List Effect
  unwind : List Effect
deriving DecidableEq

/-- All effects of a construction, in program order. -/
def AllocResult.trace (r : AllocResult) : List Effect := r.construct ++ r.unwind

/-- The code at label `err_free`. -/
def err_free : List Effect := [Effect.verbs_uninit_context, Effect.free_context]

/-- The code from label `dca_free` on: the call of `uninit_dca_context`, then the code
at `err_free`. -/
def dca_free (hdr : Header) (context : hns_roce_context) : List Effect :=
  Effect.uninit_dca_context :: uninit_dca_context hdr context ++ err_free

/-- Source function `hns_roce_alloc_context`. -/
def hns_roce_alloc_context (hdr : Header) (env : Env) (hr_dev : hns_roce_device)
    (ctx_attr : Option hnsdv_context_attr) : AllocResult :=
  let t0 := [Effect.verbs_init_and_alloc_context]
  if env.alloc_ok = false then
    { ret := none, hr_dev := hr_dev, construct := t0, unwind := [] }
  else
    let context := zero_context
    let cmd := ucontext_set_cmd hdr { comp := 0, dca_max_qps := 0 } ctx_attr
    let t1 := t0 ++ [Effect.ibv_cmd_get_context cmd]
    if env.get_context_ret ≠ 0 then
      { ret := none, hr_dev := hr_dev, construct := t1, unwind := err_free }
    else
      let context :=
        { context with
          cqe_size := derive_cqe_size hdr env.resp.cqe_size
          cap_flags := env.resp.cap_flags
          num_qps := env.resp.qp_tab_size
          num_srqs := env.resp.srq_tab_size }
      let context :=
        { context with
          qp_table_shift := table_shift context.num_qps hdr.HNS_ROCE_QP_TABLE_BITS }
      let context :=
        { context with
          qp_table_mask := table_mask context.qp_table_shift
          qp_table_refcnt := List.replicate hdr.HNS_ROCE_QP_TABLE_SIZE 0 }
      let context :=
        { context with
          srq_table_shift := table_shift context.num_srqs hdr.HNS_ROCE_SRQ_TABLE_BITS }
      let context :=
        { context with
          srq_table_mask := table_mask context.srq_table_shift
          srq_table_refcnt := List.replicate hdr.HNS_ROCE_SRQ_TABLE_SIZE 0 }
      let t2 := t1 ++ [Effect.pthread_mutex_init_qp_table,
        Effect.pthread_mutex_init_srq_table, Effect.hns_roce_u_query_device]
      if env.query_device_ret ≠ 0 then
        { ret := none, hr_dev := hr_dev, construct := t2, unwind := err_free }
      else
        let hr_dev := { hr_dev with hw_version := env.dev_attrs.hw_ver }
        let context :=
          { context with
            max_qp_wr := env.dev_attrs.max_qp_wr
            max_sge := env.dev_attrs.max_sge
            max_cqe := env.dev_attrs.max_cqe
            max_srq_wr := env.dev_attrs.max_srq_wr
            max_srq_sge := env.dev_attrs.max_srq_sge }
        let d := init_dca_context hdr env context hr_dev.page_size ctx_attr
          env.resp.dca_qps env.resp.dca_mmap_size
        let t3 := t2 ++ [Effect.pthread_spin_init_uar_lock, Effect.verbs_set_ops,
          Effect.verbs_set_ops, Effect.init_dca_context] ++ d.2.2
        if d.1 ≠ 0 then
          { ret := none, hr_dev := hr_dev, construct := t3, unwind := err_free }
        else
          let m := hns_roce_mmap hdr env hr_dev d.2.1
          let t4 := t3 ++ Effect.hns_roce_mmap :: m.2.2
          if m.1 ≠ 0 then
            { ret := none, hr_dev := hr_dev, construct := t4,
              unwind := dca_free hdr m.2.1 }
          else
            { ret := some m.2.1, hr_dev := hr_dev, construct := t4, unwind := [] }

/-- The first two statements of `hns_roce_free_context`: the unmapping of the doorbell
page and, on hardware version 1, of the legacy CQ pointer region. -/
def doorbell_unmap (hdr : Header) (hr_dev : hns_roce_device) : List Effect :=
  Effect.munmap_uar ::
    (if hr_dev.hw_version = hdr.HNS_ROCE_HW_VER1 then [Effect.munmap_cq_tptr_base] else [])

/-- Source function `hns_roce_free_context`: the effects of a teardown. -/
def hns_roce_free_context (hdr : Header) (hr_dev : hns_roce_device)
    (context : hns_roce_context) : List Effect :=
  doorbell_unmap hdr hr_dev ++ Effect.uninit_dca_context :: uninit_dca_context hdr context
    ++ [Effect.verbs_uninit_context, Effect.free_context]

/-! ## Concrete inputs -/

/-- An environment in which every call succeeds: tables of 2^12 queue pairs and 2^10
shared receive queues, a reported CQE size of 64, hardware version 2. -/
def env_ok : Env where
  alloc_ok := true
  get_context_ret := 0
  resp := { cqe_size := 64, cap_flags := 2 ^ 15, qp_tab_size := 2 ^ 12,
            srq_tab_size := 2 ^ 10, dca_qps := 64, dca_mmap_size := 4096 }
  query_device_ret := 0
  dev_attrs := { hw_ver := 0x130, max_qp_wr := 32768, max_sge := 64, max_cqe := 4194304,
                 max_srq_wr := 32768, max_srq_sge := 64 }
  dca_spin_init_ret := 0
  mmap_dca_ret := 0x7f0000200000
  mmap_uar_ret := 0x7f0000100000
  mmap_cq_tptr_ret := 0x7f0000300000

/-- A device with 4 KiB pages. -/
def dev_4k : hns_roce_device := { hw_version := 0x130, page_size := 4096 }

/-- Attributes that enable DCA and set none of the size fields. -/
def attr_dca : hnsdv_context_attr :=
  { flags := 1, comp_mask := 0, dca_prime_qps := 0, dca_unit_size := 0,
    dca_max_size := 0, dca_min_size := 0 }

/-- Attributes that enable DCA and request a unit size of 5000 bytes, a maximum of
100000 bytes and a minimum of 10000 bytes. -/
def attr_sized : hnsdv_context_attr :=
  { flags := 1, comp_mask := 14, dca_prime_qps := 0, dca_unit_size := 5000,
    dca_max_size := 100000, dca_min_size := 10000 }

/-- The context that `hns_roce_alloc_context` returns for `env_ok`, `dev_4k` and
`attr_dca` under the provider header. -/
def ctx_ok : hns_roce_context where
  cqe_size := 64
  cap_flags := 2 ^ 15
  num_qps := 4096
  num_srqs := 1024
  qp_table_shift := 4
  qp_table_mask := some 15
  qp_table_refcnt := List.replicate 256 0
  srq_table_shift := 2
  srq_table_mask := some 3
  srq_table_refcnt := List.replicate 256 0
  max_qp_wr := 32768
  max_sge := 64
  max_cqe := 4194304
  max_srq_wr := 32768
  max_srq_sge := 64
  uar := 0x7f0000100000
  cq_tptr_base := 0
  dca_ctx :=
    { mem_list := [], mem_cnt := 0, unit_size := 65536, max_size := 2 ^ 64 - 1,
      min_size := 2 ^ 64 - 1, max_qps := 64, status_size := 4096,
      buf_status := 0x7f0000200000, sync_status := 0x7f0000200800 }

/-! ## Offset codec: proofs -/

theorem low_byte_and (x : Nat) : x &&& 0xff = x % 256 :=
  Nat.and_pow_two_sub_one_eq_mod x 8

theorem or_low_byte (q r : Nat) (hr : r < 256) : r ||| (q <<< 8) = q * 256 + r := by
  rw [Nat.shiftLeft_eq, Nat.or_comm, Nat.mul_comm q, ← Nat.mul_add_lt_is_or (by simpa using hr) q]

theorem uar_offset_eq (c i : Nat) (hc : c < 256) (hi : i < 2 ^ 56) :
    uar_offset i (c : Int) = (i / 256) * 65536 + c * 256 + i % 256 := by
  unfold uar_offset hns_roce_mmap_set_index hns_roce_mmap_set_command
  have h1 : ((c : Int) % 256).toNat = c := by omega
  have hr : i % 256 < 2 ^ 8 := by omega
  have h2 : (i % 256) ||| ((i >>> 8) <<< 16) = 2 ^ 16 * (i / 256) ||| (i % 256) := by
    rw [Nat.shiftRight_eq_div_pow, Nat.shiftLeft_eq, Nat.or_comm, Nat.mul_comm]
  have h3 : 2 ^ 16 * (i / 256) ||| (i % 256) < 2 ^ 64 := by
    rw [← Nat.mul_add_lt_is_or (by omega) (i / 256)]
    omega
  have h4 : 2 ^ 8 * c + i % 256 < 2 ^ 16 := by omega
  rw [h1, low_byte_and, h2, Nat.mod_eq_of_lt h3, Nat.zero_or, Nat.shiftLeft_eq,
    Nat.or_comm, Nat.or_assoc, Nat.or_comm (i % 256), Nat.mul_comm c,
    ← Nat.mul_add_lt_is_or hr c, ← Nat.mul_add_lt_is_or h4 (i / 256)]
  omega

theorem offset_command_eq (q c r : Nat) (hc : c < 256) (hr : r < 256) :
    offset_command (q * 65536 + c * 256 + r) = c := by
  unfold offset_command
  rw [low_byte_and, Nat.shiftRight_eq_div_pow]
  omega

theorem offset_index_eq (q c r : Nat) (hc : c < 256) (hr : r < 256) :
    offset_index (q * 65536 + c * 256 + r) = q * 256 + r := by
  unfold offset_index
  rw [low_byte_and, Nat.shiftRight_eq_div_pow]
  have h1 : (q * 65536 + c * 256 + r) % 256 = r := by omega
  have h2 : (q * 65536 + c * 256 + r) / 2 ^ 16 = q := by omega
  rw [h1, h2, or_low_byte q r hr]

theorem uar_offset_decode (c i : Nat) (hc : c ≤ 255) (hi : i < 2 ^ 56) :
    uar_offset i (c : Int) < 2 ^ 64 ∧ offset_command (uar_offset i (c : Int)) = c ∧
      offset_index (uar_offset i (c : Int)) = i := by
  have hc' : c < 256 := by omega
  have hr : i % 256 < 256 := by omega
  rw [uar_offset_eq c i hc' hi]
  refine ⟨by omega, offset_command_eq _ _ _ hc' hr, ?_⟩
  rw [offset_index_eq _ _ _ hc' hr]
  omega

/-- C1: for a command in [0,255] and an index below 2^56 the offset that
`get_uar_mmap_offset` builds from 0 with `hns_roce_mmap_set_command` and then
`hns_roce_mmap_set_index` (and then multiplies by the page size) is a 64-bit value
whose bits [15:8] are the command and whose bits [7:0] and [63:16] together are the
index; hence a second pair of the same domain with the same offset is the same pair. -/
theorem offset_codec_round_trip (command index : Nat) (hc : command ≤ 255)
    (hi : index < 2 ^ 56) :
    (∀ page_size : Nat, get_uar_mmap_offset index page_size (command : Int)
        = (hns_roce_mmap_set_index index (hns_roce_mmap_set_command (command : Int) 0)
            * page_size) % 2 ^ 64) ∧
    uar_offset index (command : Int) < 2 ^ 64 ∧
    offset_command (uar_offset index (command : Int)) = command ∧
    offset_index (uar_offset index (command : Int)) = index ∧
    (∀ command2 index2 : Nat, command2 ≤ 255 → index2 < 2 ^ 56 →
      uar_offset index2 (command2 : Int) = uar_offset index (command : Int) →
      command2 = command ∧ index2 = index) := by
  obtain ⟨h1, h2, h3⟩ := uar_offset_decode command index hc hi
  refine ⟨fun _ => rfl, h1, h2, h3, ?_⟩
  intro c2 i2 hc2 hi2 heq
  obtain ⟨_, k2, k3⟩ := uar_offset_decode c2 i2 hc2 hi2
  rw [heq] at k2 k3
  exact ⟨k2.symm.trans h2, k3.symm.trans h3⟩

/-- Witness of C1 at command 1 (the DCA page) and index 0x1234. -/
theorem offset_codec_round_trip_witness :
    uar_offset 0x1234 1 = 0x120134 ∧ offset_command (uar_offset 0x1234 1) = 1 ∧
      offset_index (uar_offset 0x1234 1) = 0x1234 :=
  ⟨by decide, (offset_codec_round_trip 1 0x1234 (by decide) (by decide)).2.2.1,
    (offset_codec_round_trip 1 0x1234 (by decide) (by decide)).2.2.2.1⟩


/-! ## DCA pool parameters: proofs -/

theorem align_mod (val al : Nat) : align val al % al = 0 := by
  unfold align
  exact Nat.mul_mod_left _ _

theorem align_pos (val al : Nat) (hv : 0 < val) (ha : 0 < al) : 0 < align val al := by
  unfold align
  have h : 0 < (val + al - 1) / al := Nat.div_pos (by omega) ha
  exact Nat.mul_pos h ha

theorem dvd_mod_two_pow (j w x : Nat) (h : 2 ^ j ∣ x) : 2 ^ j ∣ x % 2 ^ w := by
  rcases le_total j w with hjw | hwj
  · exact (Nat.dvd_mod_iff (pow_dvd_pow 2 hjw)).2 h
  · have h2 : 2 ^ w ∣ x := Dvd.dvd.trans (pow_dvd_pow 2 hwj) h
    rw [Nat.mod_eq_zero_of_dvd h2]
    exact Nat.dvd_zero _

theorem round_up_spec (m u : Nat) (hu : 0 < u) :
    ((m + u - 1) / u * u) % u = 0 ∧ m ≤ (m + u - 1) / u * u ∧ (m + u - 1) / u * u < m + u := by
  have h1 : u * ((m + u - 1) / u) + (m + u - 1) % u = m + u - 1 := Nat.div_add_mod _ _
  have h2 : (m + u - 1) % u < u := Nat.mod_lt _ hu
  rw [Nat.mul_comm] at h1
  refine ⟨Nat.mul_mod_left _ _, ?_, ?_⟩ <;> omega

theorem round_up_least (m u x : Nat) (hu : 0 < u) (hx : x % u = 0) (hm : m ≤ x) :
    (m + u - 1) / u * u ≤ x := by
  obtain ⟨t, rfl⟩ := Nat.dvd_of_mod_eq_zero hx
  rw [Nat.mul_comm u t]
  apply Nat.mul_le_mul_right
  have h : (m + u - 1) / u < t + 1 := by
    rw [Nat.div_lt_iff_lt_mul hu, Nat.add_mul, Nat.mul_comm t u]
    omega
  omega

theorem set_dca_pool_param_unit_size (hdr : Header) (attr : hnsdv_context_attr)
    (page_size : Nat) (ctx : hns_roce_dca_ctx) :
    (set_dca_pool_param hdr attr page_size ctx).unit_size =
      if attr.comp_mask &&& hdr.HNSDV_CONTEXT_MASK_DCA_UNIT_SIZE ≠ 0 then
        align attr.dca_unit_size page_size % 2 ^ hdr.unit_size_bits
      else (page_size * hdr.HNS_DCA_DEFAULT_UNIT_PAGES) % 2 ^ hdr.unit_size_bits := by
  unfold set_dca_pool_param
  dsimp only
  split_ifs <;> rfl

theorem set_dca_pool_param_max_size (hdr : Header) (attr : hnsdv_context_attr)
    (page_size : Nat) (ctx : hns_roce_dca_ctx)
    (hu : (set_dca_pool_param hdr attr page_size ctx).unit_size ≠ 0) :
    (set_dca_pool_param hdr attr page_size ctx).max_size =
      if attr.comp_mask &&& hdr.HNSDV_CONTEXT_MASK_DCA_MAX_SIZE ≠ 0 then
        (DIV_ROUND_UP hdr.mem_size_bits attr.dca_max_size
            (set_dca_pool_param hdr attr page_size ctx).unit_size
          * (set_dca_pool_param hdr attr page_size ctx).unit_size) % 2 ^ hdr.mem_size_bits
      else hdr.HNS_DCA_MAX_MEM_SIZE := by
  rw [set_dca_pool_param_unit_size] at hu ⊢
  unfold set_dca_pool_param
  dsimp only
  split_ifs at hu ⊢ <;> first | rfl | exact absurd ‹_› hu

theorem set_dca_pool_param_min_size (hdr : Header) (attr : hnsdv_context_attr)
    (page_size : Nat) (ctx : hns_roce_dca_ctx)
    (hu : (set_dca_pool_param hdr attr page_size ctx).unit_size ≠ 0) :
    (set_dca_pool_param hdr attr page_size ctx).min_size =
      if attr.comp_mask &&& hdr.HNSDV_CONTEXT_MASK_DCA_MIN_SIZE ≠ 0 then
        (DIV_ROUND_UP hdr.mem_size_bits attr.dca_min_size
            (set_dca_pool_param hdr attr page_size ctx).unit_size
          * (set_dca_pool_param hdr attr page_size ctx).unit_size) % 2 ^ hdr.mem_size_bits
      else hdr.HNS_DCA_MAX_MEM_SIZE := by
  rw [set_dca_pool_param_unit_size] at hu ⊢
  unfold set_dca_pool_param
  dsimp only
  split_ifs at hu ⊢ <;> first | rfl | exact absurd ‹_› hu

theorem round_up_store (bits m u : Nat) (hu : 0 < u) (hm : m + u < 2 ^ bits) :
    (DIV_ROUND_UP bits m u * u) % 2 ^ bits = (m + u - 1) / u * u := by
  unfold DIV_ROUND_UP
  have h := round_up_spec m u hu
  rw [Nat.mod_eq_of_lt (by omega : m + u - 1 < 2 ^ bits), Nat.mod_eq_of_lt (by omega)]


theorem init_dca_context_enabled (hdr : Header) (env : Env) (ctx : hns_roce_context)
    (page_size : Nat) (attr : hnsdv_context_attr) (max_qps mmap_size : Int)
    (hspin : env.dca_spin_init_ret = 0)
    (hflag : attr.flags &&& hdr.HNSDV_CONTEXT_FLAGS_DCA ≠ 0) :
    (init_dca_context hdr env ctx page_size (some attr) max_qps mmap_size).1 = 0 ∧
    (init_dca_context hdr env ctx page_size (some attr) max_qps mmap_size).2.1.dca_ctx.unit_size
      = (set_dca_pool_param hdr attr page_size
          { ctx.dca_ctx with unit_size := 0, mem_cnt := 0, mem_list := [] }).unit_size ∧
    (init_dca_context hdr env ctx page_size (some attr) max_qps mmap_size).2.1.dca_ctx.max_size
      = (set_dca_pool_param hdr attr page_size
          { ctx.dca_ctx with unit_size := 0, mem_cnt := 0, mem_list := [] }).max_size ∧
    (init_dca_context hdr env ctx page_size (some attr) max_qps mmap_size).2.1.dca_ctx.min_size
      = (set_dca_pool_param hdr attr page_size
          { ctx.dca_ctx with unit_size := 0, mem_cnt := 0, mem_list := [] }).min_size := by
  unfold init_dca_context mmap_dca
  simp only [hspin, ne_eq, not_true_eq_false, if_false, if_neg hflag]
  split_ifs <;> simp

theorem init_dca_context_unit_size_cases (hdr : Header) (env : Env) (ctx : hns_roce_context)
    (page_size : Nat) (attr : Option hnsdv_context_attr) (max_qps mmap_size : Int) :
    (init_dca_context hdr env ctx page_size attr max_qps mmap_size).2.1.dca_ctx.unit_size = 0 ∨
    ∃ a, (init_dca_context hdr env ctx page_size attr max_qps mmap_size).2.1.dca_ctx.unit_size
      = (set_dca_pool_param hdr a page_size
          { ctx.dca_ctx with unit_size := 0, mem_cnt := 0, mem_list := [] }).unit_size := by
  by_cases hspin : env.dca_spin_init_ret = 0
  · cases attr with
    | none => left; simp [init_dca_context, hspin]
    | some a =>
      by_cases hflag : a.flags &&& hdr.HNSDV_CONTEXT_FLAGS_DCA = 0
      · left; simp [init_dca_context, hspin, hflag]
      · right
        exact ⟨a, (init_dca_context_enabled hdr env ctx page_size a max_qps mmap_size hspin
          hflag).2.1⟩
  · left; simp [init_dca_context, hspin]

theorem set_dca_pool_param_unit_size_dvd (hdr : Header) (attr : hnsdv_context_attr)
    (j : Nat) (ctx : hns_roce_dca_ctx) :
    2 ^ j ∣ (set_dca_pool_param hdr attr (2 ^ j) ctx).unit_size := by
  rw [set_dca_pool_param_unit_size]
  split_ifs
  · exact dvd_mod_two_pow j _ _ (Nat.dvd_of_mod_eq_zero (align_mod _ _))
  · exact dvd_mod_two_pow j _ _ (Dvd.intro _ rfl)

/-- C2 (as amended): with the DCA flag and the unit-size mask bit set, a page size P
that is a power of two and a requested unit size U > 0, the unit size stored by
`init_dca_context` is a multiple of P, and it is positive whenever the round-up of U
to a multiple of P fits the field `unit_size`. -/
theorem unit_size_page_multiple (hdr : Header) (env : Env) (ctx : hns_roce_context)
    (page_size j U : Nat) (attr : hnsdv_context_attr) (max_qps mmap_size : Int)
    (hP : page_size = 2 ^ j) (hspin : env.dca_spin_init_ret = 0)
    (hflag : attr.flags &&& hdr.HNSDV_CONTEXT_FLAGS_DCA ≠ 0)
    (hmask : attr.comp_mask &&& hdr.HNSDV_CONTEXT_MASK_DCA_UNIT_SIZE ≠ 0)
    (hU : attr.dca_unit_size = U) (hpos : 0 < U) :
    (init_dca_context hdr env ctx page_size (some attr) max_qps mmap_size).2.1.dca_ctx.unit_size
        % page_size = 0 ∧
    (align U page_size < 2 ^ hdr.unit_size_bits →
      0 < (init_dca_context hdr env ctx page_size (some attr) max_qps
          mmap_size).2.1.dca_ctx.unit_size) := by
  subst hP
  rw [(init_dca_context_enabled hdr env ctx (2 ^ j) attr max_qps mmap_size hspin hflag).2.1]
  refine ⟨Nat.mod_eq_zero_of_dvd (set_dca_pool_param_unit_size_dvd hdr attr j _), ?_⟩
  intro hfit
  rw [set_dca_pool_param_unit_size, if_pos hmask, hU, Nat.mod_eq_of_lt hfit]
  exact align_pos _ _ hpos (Nat.two_pow_pos j)

/-- Witness of C2 (as amended): 5000 bytes on 4 KiB pages give a unit of 8192 bytes. -/
theorem unit_size_page_multiple_witness :
    (init_dca_context hns_header env_ok zero_context 4096 (some attr_sized) 64
        4096).2.1.dca_ctx.unit_size = 8192 ∧
    (init_dca_context hns_header env_ok zero_context 4096 (some attr_sized) 64
        4096).2.1.dca_ctx.unit_size % 4096 = 0 ∧
    0 < (init_dca_context hns_header env_ok zero_context 4096 (some attr_sized) 64
        4096).2.1.dca_ctx.unit_size :=
  ⟨by decide,
    (unit_size_page_multiple hns_header env_ok zero_context 4096 12 5000 attr_sized 64 4096
      (by decide) (by decide) (by decide) (by decide) (by decide) (by decide)).1,
    (unit_size_page_multiple hns_header env_ok zero_context 4096 12 5000 attr_sized 64 4096
      (by decide) (by decide) (by decide) (by decide) (by decide) (by decide)).2
      (by decide)⟩

/-- Counterexample to C2 as stated: with the 32-bit `unit_size` of the provider header,
4 KiB pages and a requested unit size of 2^32 - 1 (positive, DCA flag and unit-size mask
bit set) the round-up is 2^32, and the stored unit size is 0. -/
theorem unit_size_wraps_to_zero :
    (0 : Nat) < 4294967295 ∧
    align 4294967295 4096 = 2 ^ 32 ∧
    ¬ (0 < (init_dca_context hns_header env_ok zero_context 4096
        (some { flags := 1, comp_mask := 2, dca_prime_qps := 0, dca_unit_size := 4294967295,
                dca_max_size := 0, dca_min_size := 0 }) 64 4096).2.1.dca_ctx.unit_size) := by
  decide

/-- C3: when the spinlock initialises and either no attributes are given or the DCA
flag is not set, `init_dca_context` returns 0, leaves a unit size of 0, a segment count
of 0 and an empty segment list, does not change `max_size`, `min_size`, `status_size`,
`max_qps`, `buf_status`, and performs nothing but the spinlock initialisation (no
mapping of the status bitmap), whatever `max_qps` and `mmap_size` are. -/
theorem init_dca_context_disabled (hdr : Header) (env : Env) (ctx : hns_roce_context)
    (page_size : Nat) (attr : Option hnsdv_context_attr) (max_qps mmap_size : Int)
    (hspin : env.dca_spin_init_ret = 0)
    (hattr : attr = none ∨
      ∃ a, attr = some a ∧ a.flags &&& hdr.HNSDV_CONTEXT_FLAGS_DCA = 0) :
    (init_dca_context hdr env ctx page_size attr max_qps mmap_size).1 = 0 ∧
    (init_dca_context hdr env ctx page_size attr max_qps mmap_size).2.1.dca_ctx
      = { ctx.dca_ctx with unit_size := 0, mem_cnt := 0, mem_list := [] } ∧
    (init_dca_context hdr env ctx page_size attr max_qps mmap_size).2.1.dca_ctx.unit_size = 0 ∧
    (init_dca_context hdr env ctx page_size attr max_qps mmap_size).2.1.dca_ctx.mem_cnt = 0 ∧
    (init_dca_context hdr env ctx page_size attr max_qps mmap_size).2.1.dca_ctx.mem_list = [] ∧
    (init_dca_context hdr env ctx page_size attr max_qps mmap_size).2.1.dca_ctx.max_size
      = ctx.dca_ctx.max_size ∧
    (init_dca_context hdr env ctx page_size attr max_qps mmap_size).2.1.dca_ctx.min_size
      = ctx.dca_ctx.min_size ∧
    (init_dca_context hdr env ctx page_size attr max_qps mmap_size).2.1.dca_ctx.status_size
      = ctx.dca_ctx.status_size ∧
    (init_dca_context hdr env ctx page_size attr max_qps mmap_size).2.1.dca_ctx.max_qps
      = ctx.dca_ctx.max_qps ∧
    (init_dca_context hdr env ctx page_size attr max_qps mmap_size).2.1.dca_ctx.buf_status
      = ctx.dca_ctx.buf_status ∧
    (init_dca_context hdr env ctx page_size attr max_qps mmap_size).2.2
      = [Effect.pthread_spin_init_dca_lock] ∧
    ∀ offset, Effect.mmap_dca offset
      ∉ (init_dca_context hdr env ctx page_size attr max_qps mmap_size).2.2 := by
  rcases hattr with rfl | ⟨a, rfl, ha⟩
  · simp [init_dca_context, hspin]
  · simp [init_dca_context, hspin, ha]

/-- Witness of C3: size attributes without the DCA flag. -/
theorem init_dca_context_disabled_witness :
    (init_dca_context hns_header env_ok zero_context 4096
      (some { attr_sized with flags := 0 }) 64 4096).1 = 0 ∧
    (init_dca_context hns_header env_ok zero_context 4096
      (some { attr_sized with flags := 0 }) 64 4096).2.1.dca_ctx.unit_size = 0 :=
  ⟨(init_dca_context_disabled hns_header env_ok zero_context 4096
      (some { attr_sized with flags := 0 }) 64 4096 (by decide)
      (Or.inr ⟨_, rfl, by decide⟩)).1,
    (init_dca_context_disabled hns_header env_ok zero_context 4096
      (some { attr_sized with flags := 0 }) 64 4096 (by decide)
      (Or.inr ⟨_, rfl, by decide⟩)).2.2.1⟩

/-- C4: when `set_dca_pool_param` computes a non-zero unit size, a cleared max-size mask
bit makes it store `HNS_DCA_MAX_MEM_SIZE` in `max_size` and a cleared min-size mask bit
makes it store `HNS_DCA_MAX_MEM_SIZE` in `min_size`, whatever `dca_max_size` and
`dca_min_size` hold; the sentinel being non-zero, neither stored value is 0. -/
theorem max_min_default_when_unset (hdr : Header) (attr : hnsdv_context_attr)
    (page_size : Nat) (ctx : hns_roce_dca_ctx)
    (hu : (set_dca_pool_param hdr attr page_size ctx).unit_size ≠ 0)
    (hs : hdr.HNS_DCA_MAX_MEM_SIZE ≠ 0) :
    (attr.comp_mask &&& hdr.HNSDV_CONTEXT_MASK_DCA_MAX_SIZE = 0 →
      (set_dca_pool_param hdr attr page_size ctx).max_size = hdr.HNS_DCA_MAX_MEM_SIZE ∧
      (set_dca_pool_param hdr attr page_size ctx).max_size ≠ 0) ∧
    (attr.comp_mask &&& hdr.HNSDV_CONTEXT_MASK_DCA_MIN_SIZE = 0 →
      (set_dca_pool_param hdr attr page_size ctx).min_size = hdr.HNS_DCA_MAX_MEM_SIZE ∧
      (set_dca_pool_param hdr attr page_size ctx).min_size ≠ 0) := by
  constructor
  · intro h
    rw [set_dca_pool_param_max_size hdr attr page_size ctx hu, if_neg (by simpa using h)]
    exact ⟨rfl, hs⟩
  · intro h
    rw [set_dca_pool_param_min_size hdr attr page_size ctx hu, if_neg (by simpa using h)]
    exact ⟨rfl, hs⟩

/-- Witness of C4: only the unit-size bit is set, the size fields hold 100000 and
10000, and both bounds are the sentinel. -/
theorem max_min_default_when_unset_witness :
    (set_dca_pool_param hns_header { attr_sized with comp_mask := 2 } 4096
      zero_context.dca_ctx).max_size = 2 ^ 64 - 1 ∧
    (set_dca_pool_param hns_header { attr_sized with comp_mask := 2 } 4096
      zero_context.dca_ctx).min_size = 2 ^ 64 - 1 :=
  ⟨((max_min_default_when_unset hns_header { attr_sized with comp_mask := 2 } 4096
      zero_context.dca_ctx (by decide) (by decide)).1 (by decide)).1,
    ((max_min_default_when_unset hns_header { attr_sized with comp_mask := 2 } 4096
      zero_context.dca_ctx (by decide) (by decide)).2 (by decide)).1⟩


/-- C8: when `set_dca_pool_param` computes a non-zero unit size u, a set max-size mask
bit and a requested maximum m with m + u inside the width of the size fields (64 bits
in the provider header) make the stored `max_size` the least multiple of u that is at
least m: it is a multiple of u, m <= max_size < m + u, and no smaller multiple of u
reaches m. The same holds for `min_size` with the min-size mask bit and the requested
minimum. -/
theorem max_min_round_up (hdr : Header) (attr : hnsdv_context_attr) (page_size : Nat)
    (ctx : hns_roce_dca_ctx)
    (hu : (set_dca_pool_param hdr attr page_size ctx).unit_size ≠ 0) :
    (attr.comp_mask &&& hdr.HNSDV_CONTEXT_MASK_DCA_MAX_SIZE ≠ 0 →
      attr.dca_max_size + (set_dca_pool_param hdr attr page_size ctx).unit_size
        < 2 ^ hdr.mem_size_bits →
      (set_dca_pool_param hdr attr page_size ctx).max_size
        % (set_dca_pool_param hdr attr page_size ctx).unit_size = 0 ∧
      attr.dca_max_size ≤ (set_dca_pool_param hdr attr page_size ctx).max_size ∧
      (set_dca_pool_param hdr attr page_size ctx).max_size
        < attr.dca_max_size + (set_dca_pool_param hdr attr page_size ctx).unit_size ∧
      ∀ x, x % (set_dca_pool_param hdr attr page_size ctx).unit_size = 0 →
        attr.dca_max_size ≤ x → (set_dca_pool_param hdr attr page_size ctx).max_size ≤ x) ∧
    (attr.comp_mask &&& hdr.HNSDV_CONTEXT_MASK_DCA_MIN_SIZE ≠ 0 →
      attr.dca_min_size + (set_dca_pool_param hdr attr page_size ctx).unit_size
        < 2 ^ hdr.mem_size_bits →
      (set_dca_pool_param hdr attr page_size ctx).min_size
        % (set_dca_pool_param hdr attr page_size ctx).unit_size = 0 ∧
      attr.dca_min_size ≤ (set_dca_pool_param hdr attr page_size ctx).min_size ∧
      (set_dca_pool_param hdr attr page_size ctx).min_size
        < attr.dca_min_size + (set_dca_pool_param hdr attr page_size ctx).unit_size ∧
      ∀ x, x % (set_dca_pool_param hdr attr page_size ctx).unit_size = 0 →
        attr.dca_min_size ≤ x → (set_dca_pool_param hdr attr page_size ctx).min_size ≤ x) := by
  have hpos : 0 < (set_dca_pool_param hdr attr page_size ctx).unit_size :=
    Nat.pos_of_ne_zero hu
  constructor
  · intro hmask hfit
    rw [set_dca_pool_param_max_size hdr attr page_size ctx hu, if_pos hmask,
      round_up_store _ _ _ hpos hfit]
    obtain ⟨h1, h2, h3⟩ := round_up_spec attr.dca_max_size _ hpos
    exact ⟨h1, h2, h3, fun x hx hm => round_up_least _ _ x hpos hx hm⟩
  · intro hmask hfit
    rw [set_dca_pool_param_min_size hdr attr page_size ctx hu, if_pos hmask,
      round_up_store _ _ _ hpos hfit]
    obtain ⟨h1, h2, h3⟩ := round_up_spec attr.dca_min_size _ hpos
    exact ⟨h1, h2, h3, fun x hx hm => round_up_least _ _ x hpos hx hm⟩

/-- Witness of C8: a unit of 8192 bytes, a requested maximum of 100000 bytes stored as
106496 and a requested minimum of 10000 bytes stored as 16384. -/
theorem max_min_round_up_witness :
    (set_dca_pool_param hns_header attr_sized 4096 zero_context.dca_ctx).unit_size = 8192 ∧
    (set_dca_pool_param hns_header attr_sized 4096 zero_context.dca_ctx).max_size = 106496 ∧
    (set_dca_pool_param hns_header attr_sized 4096 zero_context.dca_ctx).min_size = 16384 ∧
    (set_dca_pool_param hns_header attr_sized 4096 zero_context.dca_ctx).max_size
      % (set_dca_pool_param hns_header attr_sized 4096 zero_context.dca_ctx).unit_size = 0 ∧
    (set_dca_pool_param hns_header attr_sized 4096 zero_context.dca_ctx).min_size
      % (set_dca_pool_param hns_header attr_sized 4096 zero_context.dca_ctx).unit_size = 0 :=
  ⟨by decide, by decide, by decide,
    ((max_min_round_up hns_header attr_sized 4096 zero_context.dca_ctx (by decide)).1
      (by decide) (by decide)).1,
    ((max_min_round_up hns_header attr_sized 4096 zero_context.dca_ctx (by decide)).2
      (by decide) (by decide)).1⟩

theorem round_up_zero (bits u : Nat) (hu : 0 < u) :
    (DIV_ROUND_UP bits 0 u * u) % 2 ^ bits = 0 := by
  unfold DIV_ROUND_UP
  have h1 : (0 + u - 1) % 2 ^ bits ≤ 0 + u - 1 := Nat.mod_le _ _
  have h2 : (0 + u - 1) % 2 ^ bits / u = 0 := Nat.div_eq_of_lt (by omega)
  rw [h2]
  simp

/-- C9 (as amended): when `set_dca_pool_param` computes a non-zero unit size, a requested
maximum of zero is stored as the sentinel `HNS_DCA_MAX_MEM_SIZE` when the max-size mask
bit is clear and as 0 when the bit is set; a requested minimum of zero is stored as the
sentinel when the min-size mask bit is clear and as 0 when the bit is set. -/
theorem zero_request_follows_mask (hdr : Header) (attr : hnsdv_context_attr)
    (page_size : Nat) (ctx : hns_roce_dca_ctx)
    (hu : (set_dca_pool_param hdr attr page_size ctx).unit_size ≠ 0) :
    (attr.dca_max_size = 0 →
      (attr.comp_mask &&& hdr.HNSDV_CONTEXT_MASK_DCA_MAX_SIZE = 0 →
        (set_dca_pool_param hdr attr page_size ctx).max_size = hdr.HNS_DCA_MAX_MEM_SIZE) ∧
      (attr.comp_mask &&& hdr.HNSDV_CONTEXT_MASK_DCA_MAX_SIZE ≠ 0 →
        (set_dca_pool_param hdr attr page_size ctx).max_size = 0)) ∧
    (attr.dca_min_size = 0 →
      (attr.comp_mask &&& hdr.HNSDV_CONTEXT_MASK_DCA_MIN_SIZE = 0 →
        (set_dca_pool_param hdr attr page_size ctx).min_size = hdr.HNS_DCA_MAX_MEM_SIZE) ∧
      (attr.comp_mask &&& hdr.HNSDV_CONTEXT_MASK_DCA_MIN_SIZE ≠ 0 →
        (set_dca_pool_param hdr attr page_size ctx).min_size = 0)) := by
  have hpos : 0 < (set_dca_pool_param hdr attr page_size ctx).unit_size :=
    Nat.pos_of_ne_zero hu
  constructor
  · intro hz
    rw [set_dca_pool_param_max_size hdr attr page_size ctx hu, hz]
    exact ⟨fun h => if_neg (by simpa using h),
      fun h => (if_pos h).trans (round_up_zero _ _ hpos)⟩
  · intro hz
    rw [set_dca_pool_param_min_size hdr attr page_size ctx hu, hz]
    exact ⟨fun h => if_neg (by simpa using h),
      fun h => (if_pos h).trans (round_up_zero _ _ hpos)⟩

/-- Witness of C9 (as amended): DCA enabled with the max-size and min-size bits set
and both requested sizes zero; both stored bounds are 0. -/
theorem zero_request_follows_mask_witness :
    (set_dca_pool_param hns_header { attr_dca with comp_mask := 12 } 4096
      zero_context.dca_ctx).max_size = 0 ∧
    (set_dca_pool_param hns_header { attr_dca with comp_mask := 12 } 4096
      zero_context.dca_ctx).min_size = 0 :=
  ⟨((zero_request_follows_mask hns_header { attr_dca with comp_mask := 12 } 4096
      zero_context.dca_ctx (by decide)).1 rfl).2 (by decide),
    ((zero_request_follows_mask hns_header { attr_dca with comp_mask := 12 } 4096
      zero_context.dca_ctx (by decide)).2 rfl).2 (by decide)⟩

/-- Counterexample to C9 as stated: DCA enabled on 4 KiB pages with the max-size and
min-size mask bits set and requested sizes of zero; the unit size is 65536, and both
stored bounds are 0, not the sentinel. -/
theorem zero_request_with_mask_is_zero :
    (init_dca_context hns_header env_ok zero_context 4096
      (some { attr_dca with comp_mask := 12 }) 64 4096).2.1.dca_ctx.unit_size = 65536 ∧
    (init_dca_context hns_header env_ok zero_context 4096
      (some { attr_dca with comp_mask := 12 }) 64 4096).2.1.dca_ctx.max_size = 0 ∧
    (init_dca_context hns_header env_ok zero_context 4096
      (some { attr_dca with comp_mask := 12 }) 64 4096).2.1.dca_ctx.min_size = 0 ∧
    (init_dca_context hns_header env_ok zero_context 4096
      (some { attr_dca with comp_mask := 12 }) 64 4096).2.1.dca_ctx.max_size
        ≠ hns_header.HNS_DCA_MAX_MEM_SIZE ∧
    (set_dca_pool_param hns_header { attr_dca with comp_mask := 12 } 4096
      zero_context.dca_ctx).max_size ≠ hns_header.HNS_DCA_MAX_MEM_SIZE := by
  decide


theorem round_up_mono (a b u : Nat) (h : a ≤ b) :
    (a + u - 1) / u * u ≤ (b + u - 1) / u * u :=
  Nat.mul_le_mul_right u (Nat.div_le_div_right (by omega))

/-- C10 (as amended): for a page size that is a power of two and any attributes,
(i) the unit size left by `init_dca_context` is 0 or a positive multiple of the page
size, and (ii) when DCA is enabled, both the max-size and the min-size mask bit are set,
the unit size u is non-zero, the requested minimum does not exceed the requested maximum
and the requested maximum plus u is inside the width of the size fields, the stored
`max_size` is at least the stored `min_size`. -/
theorem dca_pool_invariant (hdr : Header) (env : Env) (ctx : hns_roce_context)
    (page_size j : Nat) (attr : Option hnsdv_context_attr) (max_qps mmap_size : Int)
    (hP : page_size = 2 ^ j) :
    ((init_dca_context hdr env ctx page_size attr max_qps mmap_size).2.1.dca_ctx.unit_size = 0 ∨
      (0 < (init_dca_context hdr env ctx page_size attr max_qps mmap_size).2.1.dca_ctx.unit_size ∧
        (init_dca_context hdr env ctx page_size attr max_qps mmap_size).2.1.dca_ctx.unit_size
          % page_size = 0)) ∧
    (∀ a, attr = some a → env.dca_spin_init_ret = 0 →
      a.flags &&& hdr.HNSDV_CONTEXT_FLAGS_DCA ≠ 0 →
      a.comp_mask &&& hdr.HNSDV_CONTEXT_MASK_DCA_MAX_SIZE ≠ 0 →
      a.comp_mask &&& hdr.HNSDV_CONTEXT_MASK_DCA_MIN_SIZE ≠ 0 →
      (init_dca_context hdr env ctx page_size attr max_qps mmap_size).2.1.dca_ctx.unit_size ≠ 0 →
      a.dca_min_size ≤ a.dca_max_size →
      a.dca_max_size
        + (init_dca_context hdr env ctx page_size attr max_qps mmap_size).2.1.dca_ctx.unit_size
          < 2 ^ hdr.mem_size_bits →
      (init_dca_context hdr env ctx page_size attr max_qps mmap_size).2.1.dca_ctx.min_size
        ≤ (init_dca_context hdr env ctx page_size attr max_qps mmap_size).2.1.dca_ctx.max_size) := by
  subst hP
  constructor
  · rcases init_dca_context_unit_size_cases hdr env ctx (2 ^ j) attr max_qps mmap_size with
      h | ⟨a, h⟩
    · exact Or.inl h
    · rw [h]
      have hd := set_dca_pool_param_unit_size_dvd hdr a j
        { ctx.dca_ctx with unit_size := 0, mem_cnt := 0, mem_list := [] }
      by_cases hz : (set_dca_pool_param hdr a (2 ^ j)
          { ctx.dca_ctx with unit_size := 0, mem_cnt := 0, mem_list := [] }).unit_size = 0
      · exact Or.inl hz
      · exact Or.inr ⟨Nat.pos_of_ne_zero hz, Nat.mod_eq_zero_of_dvd hd⟩
  · rintro a rfl hspin hflag hmax hmin
    obtain ⟨_, e1, e2, e3⟩ :=
      init_dca_context_enabled hdr env ctx (2 ^ j) a max_qps mmap_size hspin hflag
    rw [e1, e2, e3]
    intro hu hle hfit
    have hpos := Nat.pos_of_ne_zero hu
    rw [set_dca_pool_param_max_size hdr a _ _ hu, set_dca_pool_param_min_size hdr a _ _ hu,
      if_pos hmax, if_pos hmin, round_up_store _ _ _ hpos hfit,
      round_up_store _ _ _ hpos (by omega)]
    exact round_up_mono _ _ _ hle

/-- Witness of C10 (as amended): 4 KiB pages, a unit of 8192 bytes, bounds 106496 and
16384. -/
theorem dca_pool_invariant_witness :
    (init_dca_context hns_header env_ok zero_context 4096 (some attr_sized) 64
        4096).2.1.dca_ctx.unit_size = 8192 ∧
    (init_dca_context hns_header env_ok zero_context 4096 (some attr_sized) 64
        4096).2.1.dca_ctx.min_size
      ≤ (init_dca_context hns_header env_ok zero_context 4096 (some attr_sized) 64
        4096).2.1.dca_ctx.max_size :=
  ⟨by decide,
    (dca_pool_invariant hns_header env_ok zero_context 4096 12 (some attr_sized) 64 4096
      (by decide)).2 attr_sized rfl (by decide) (by decide) (by decide) (by decide)
      (by decide) (by decide) (by decide)⟩

/-- Counterexample to C10 (ii) as stated: DCA enabled on 4 KiB pages with all three size
mask bits set, a unit of 4096 bytes, a requested maximum of 4096 bytes and a requested
minimum of 8192 bytes; the stored maximum 4096 is below the stored minimum 8192. -/
theorem max_size_below_min_size :
    (init_dca_context hns_header env_ok zero_context 4096
      (some { flags := 1, comp_mask := 14, dca_prime_qps := 0, dca_unit_size := 4096,
              dca_max_size := 4096, dca_min_size := 8192 }) 64 4096).2.1.dca_ctx.unit_size
        = 4096 ∧
    (init_dca_context hns_header env_ok zero_context 4096
      (some { flags := 1, comp_mask := 14, dca_prime_qps := 0, dca_unit_size := 4096,
              dca_max_size := 4096, dca_min_size := 8192 }) 64 4096).2.1.dca_ctx.max_size
        = 4096 ∧
    (init_dca_context hns_header env_ok zero_context 4096
      (some { flags := 1, comp_mask := 14, dca_prime_qps := 0, dca_unit_size := 4096,
              dca_max_size := 4096, dca_min_size := 8192 }) 64 4096).2.1.dca_ctx.min_size
        = 8192 ∧
    ¬ ((init_dca_context hns_header env_ok zero_context 4096
      (some { flags := 1, comp_mask := 14, dca_prime_qps := 0, dca_unit_size := 4096,
              dca_max_size := 4096, dca_min_size := 8192 }) 64 4096).2.1.dca_ctx.max_size
        ≥ (init_dca_context hns_header env_ok zero_context 4096
      (some { flags := 1, comp_mask := 14, dca_prime_qps := 0, dca_unit_size := 4096,
              dca_max_size := 4096, dca_min_size := 8192 }) 64 4096).2.1.dca_ctx.min_size) := by
  decide


/-! ## Context construction: proofs -/

theorem ffs_aux_two_pow (width k : Nat) (h : k < width) : ffs_aux width (2 ^ k) = k + 1 := by
  induction width generalizing k with
  | zero => omega
  | succ w ih =>
    cases k with
    | zero => simp [ffs_aux]
    | succ k =>
      have h1 : 2 ^ (k + 1) % 2 = 0 := by rw [Nat.pow_succ]; omega
      have h2 : 2 ^ (k + 1) / 2 = 2 ^ k := by rw [Nat.pow_succ]; omega
      have h3 := ih k (by omega)
      simp [ffs_aux, h1, h2, h3]

theorem table_shift_two_pow (k table_bits : Nat) (hk : k ≤ 31) (hb : table_bits ≤ k) :
    table_shift (2 ^ k) table_bits = ((k - table_bits : Nat) : Int) := by
  unfold table_shift ffs
  rw [ffs_aux_two_pow 32 k (by omega)]
  omega

theorem table_mask_two_pow (s : Nat) (hs : s < 31) :
    table_mask ((s : Nat) : Int) = some (((2 ^ s - 1 : Nat) : Int)) := by
  unfold table_mask
  have h1 : (0 : Int) ≤ (s : Int) ∧ (s : Int) < 31 := by omega
  have h2 : 1 ≤ 2 ^ s := Nat.one_le_two_pow
  rw [if_pos h1, Int.toNat_ofNat, Nat.shiftLeft_eq, Nat.one_mul]
  congr 1
  omega

theorem init_dca_context_frame (hdr : Header) (env : Env) (ctx : hns_roce_context)
    (page_size : Nat) (attr : Option hnsdv_context_attr) (max_qps mmap_size : Int) :
    ∃ d, (init_dca_context hdr env ctx page_size attr max_qps mmap_size).2.1
      = { ctx with dca_ctx := d } := by
  cases attr with
  | none =>
    unfold init_dca_context
    dsimp only
    split_ifs <;> exact ⟨_, rfl⟩
  | some a =>
    unfold init_dca_context
    dsimp only
    split_ifs <;> exact ⟨_, rfl⟩

theorem hns_roce_mmap_frame (hdr : Header) (env : Env) (hr_dev : hns_roce_device)
    (context : hns_roce_context) :
    ∃ u q, (hns_roce_mmap hdr env hr_dev context).2.1
      = { context with uar := u, cq_tptr_base := q } := by
  unfold hns_roce_mmap
  dsimp only
  split_ifs <;> exact ⟨_, _, rfl⟩

theorem alloc_context_fields (hdr : Header) (env : Env) (hr_dev : hns_roce_device)
    (ctx_attr : Option hnsdv_context_attr) (context : hns_roce_context)
    (h : (hns_roce_alloc_context hdr env hr_dev ctx_attr).ret = some context) :
    context.cqe_size = derive_cqe_size hdr env.resp.cqe_size ∧
    context.qp_table_shift = table_shift env.resp.qp_tab_size hdr.HNS_ROCE_QP_TABLE_BITS ∧
    context.qp_table_mask
      = table_mask (table_shift env.resp.qp_tab_size hdr.HNS_ROCE_QP_TABLE_BITS) ∧
    context.srq_table_shift = table_shift env.resp.srq_tab_size hdr.HNS_ROCE_SRQ_TABLE_BITS ∧
    context.srq_table_mask
      = table_mask (table_shift env.resp.srq_tab_size hdr.HNS_ROCE_SRQ_TABLE_BITS) := by
  unfold hns_roce_alloc_context at h
  dsimp only at h
  split_ifs at h
  simp only [Option.some.injEq] at h
  obtain ⟨u, q, hm⟩ := hns_roce_mmap_frame hdr env
    { hr_dev with hw_version := env.dev_attrs.hw_ver } _
  rw [hm] at h
  obtain ⟨d, hd⟩ := init_dca_context_frame hdr env _ hr_dev.page_size ctx_attr
    env.resp.dca_qps env.resp.dca_mmap_size
  rw [hd] at h
  subst h
  exact ⟨rfl, rfl, rfl, rfl, rfl⟩


/-- C5: the context returned by `hns_roce_alloc_context` stores `HNS_ROCE_CQE_SIZE`
when the kernel reports a CQE size of 0, the reported size when it is positive and at
most `HNS_ROCE_V3_CQE_SIZE`, and `HNS_ROCE_V3_CQE_SIZE` when it is larger; with a
default that does not exceed the maximum the stored size is at most
`HNS_ROCE_V3_CQE_SIZE`, and it is non-zero when that default is itself non-zero. -/
theorem cqe_size_derivation (hdr : Header) (env : Env) (hr_dev : hns_roce_device)
    (ctx_attr : Option hnsdv_context_attr) (context : hns_roce_context)
    (h : (hns_roce_alloc_context hdr env hr_dev ctx_attr).ret = some context) :
    (env.resp.cqe_size = 0 → context.cqe_size = hdr.HNS_ROCE_CQE_SIZE) ∧
    (0 < env.resp.cqe_size → env.resp.cqe_size ≤ hdr.HNS_ROCE_V3_CQE_SIZE →
      context.cqe_size = env.resp.cqe_size) ∧
    (hdr.HNS_ROCE_V3_CQE_SIZE < env.resp.cqe_size →
      context.cqe_size = hdr.HNS_ROCE_V3_CQE_SIZE) ∧
    (hdr.HNS_ROCE_CQE_SIZE ≤ hdr.HNS_ROCE_V3_CQE_SIZE →
      context.cqe_size ≤ hdr.HNS_ROCE_V3_CQE_SIZE) ∧
    (0 < hdr.HNS_ROCE_CQE_SIZE → hdr.HNS_ROCE_CQE_SIZE ≤ hdr.HNS_ROCE_V3_CQE_SIZE →
      context.cqe_size ≠ 0) := by
  rw [(alloc_context_fields hdr env hr_dev ctx_attr context h).1]
  unfold derive_cqe_size
  refine ⟨fun h0 => by simp [h0], fun h0 h1 => ?_, fun h0 => ?_, fun h0 => ?_,
    fun h0 h1 => ?_⟩
  · rw [if_neg (by omega), if_pos h1]
  · rw [if_neg (by omega), if_neg (by omega)]
  · split_ifs <;> omega
  · split_ifs <;> omega

/-- Witness of C5: a reported CQE size of 64 is stored as 64. -/
theorem cqe_size_derivation_witness :
    (hns_roce_alloc_context hns_header env_ok dev_4k (some attr_dca)).ret = some ctx_ok ∧
    ctx_ok.cqe_size = env_ok.resp.cqe_size ∧
    ctx_ok.cqe_size ≤ hns_header.HNS_ROCE_V3_CQE_SIZE ∧
    ctx_ok.cqe_size ≠ 0 :=
  ⟨rfl,
    (cqe_size_derivation hns_header env_ok dev_4k (some attr_dca) ctx_ok rfl).2.1
      (by decide) (by decide),
    (cqe_size_derivation hns_header env_ok dev_4k (some attr_dca) ctx_ok rfl).2.2.2.1
      (by decide),
    (cqe_size_derivation hns_header env_ok dev_4k (some attr_dca) ctx_ok rfl).2.2.2.2
      (by decide) (by decide)⟩

theorem and_mask_lt (index s : Nat) : index &&& ((1 <<< s) - 1) < 2 ^ s := by
  rw [Nat.shiftLeft_eq, Nat.one_mul, Nat.and_pow_two_sub_one_eq_mod]
  exact Nat.mod_lt _ (Nat.two_pow_pos s)

theorem shift_mask_two_pow (k table_bits : Nat) (hk : k ≤ 30) (hb : table_bits ≤ k) :
    table_shift (2 ^ k) table_bits = (k : Int) - (table_bits : Int) ∧
    table_mask (table_shift (2 ^ k) table_bits)
      = some ((((1 <<< (k - table_bits)) - 1 : Nat) : Int)) := by
  rw [table_shift_two_pow k table_bits (by omega) hb, table_mask_two_pow _ (by omega),
    Nat.shiftLeft_eq, Nat.one_mul]
  exact ⟨by omega, rfl⟩

/-- C6: when the kernel reports a queue-pair table size of 2^k with
`HNS_ROCE_QP_TABLE_BITS` <= k <= 30, the context returned by `hns_roce_alloc_context`
has `qp_table_shift` = k - `HNS_ROCE_QP_TABLE_BITS` and `qp_table_mask` =
(1 << (k - `HNS_ROCE_QP_TABLE_BITS`)) - 1, and every index masked with it is below
2^(k - `HNS_ROCE_QP_TABLE_BITS`); the same holds for the SRQ table with
`HNS_ROCE_SRQ_TABLE_BITS` and the reported SRQ table size. -/
theorem table_shift_mask (hdr : Header) (env : Env) (hr_dev : hns_roce_device)
    (ctx_attr : Option hnsdv_context_attr) (context : hns_roce_context) (k : Nat)
    (h : (hns_roce_alloc_context hdr env hr_dev ctx_attr).ret = some context)
    (hk : k ≤ 30) :
    (env.resp.qp_tab_size = 2 ^ k → hdr.HNS_ROCE_QP_TABLE_BITS ≤ k →
      context.qp_table_shift = (k : Int) - (hdr.HNS_ROCE_QP_TABLE_BITS : Int) ∧
      context.qp_table_mask
        = some ((((1 <<< (k - hdr.HNS_ROCE_QP_TABLE_BITS)) - 1 : Nat) : Int)) ∧
      ∀ index : Nat, index &&& ((1 <<< (k - hdr.HNS_ROCE_QP_TABLE_BITS)) - 1)
        < 2 ^ (k - hdr.HNS_ROCE_QP_TABLE_BITS)) ∧
    (env.resp.srq_tab_size = 2 ^ k → hdr.HNS_ROCE_SRQ_TABLE_BITS ≤ k →
      context.srq_table_shift = (k : Int) - (hdr.HNS_ROCE_SRQ_TABLE_BITS : Int) ∧
      context.srq_table_mask
        = some ((((1 <<< (k - hdr.HNS_ROCE_SRQ_TABLE_BITS)) - 1 : Nat) : Int)) ∧
      ∀ index : Nat, index &&& ((1 <<< (k - hdr.HNS_ROCE_SRQ_TABLE_BITS)) - 1)
        < 2 ^ (k - hdr.HNS_ROCE_SRQ_TABLE_BITS)) := by
  obtain ⟨_, h1, h2, h3, h4⟩ := alloc_context_fields hdr env hr_dev ctx_attr context h
  constructor
  · intro hs hb
    rw [h1, h2, hs]
    exact ⟨(shift_mask_two_pow k _ hk hb).1, (shift_mask_two_pow k _ hk hb).2,
      fun index => and_mask_lt index _⟩
  · intro hs hb
    rw [h3, h4, hs]
    exact ⟨(shift_mask_two_pow k _ hk hb).1, (shift_mask_two_pow k _ hk hb).2,
      fun index => and_mask_lt index _⟩

/-- Witness of C6: a queue-pair table of 2^12 entries with 8 table bits gives shift 4
and mask 15. -/
theorem table_shift_mask_witness :
    (hns_roce_alloc_context hns_header env_ok dev_4k (some attr_dca)).ret = some ctx_ok ∧
    ctx_ok.qp_table_shift = 4 ∧ ctx_ok.qp_table_mask = some 15 :=
  ⟨rfl,
    ((table_shift_mask hns_header env_ok dev_4k (some attr_dca) ctx_ok 12 rfl
      (by decide)).1 (by decide) (by decide)).1,
    ((table_shift_mask hns_header env_ok dev_4k (some attr_dca) ctx_ok 12 rfl
      (by decide)).1 (by decide) (by decide)).2.1⟩


theorem uninit_dca_context_no_doorbell (hdr : Header) (context : hns_roce_context) :
    Effect.munmap_uar ∉ uninit_dca_context hdr context ∧
    Effect.munmap_cq_tptr_base ∉ uninit_dca_context hdr context := by
  unfold uninit_dca_context
  split_ifs <;> simp

theorem init_dca_context_trace (hdr : Header) (env : Env) (ctx : hns_roce_context)
    (page_size : Nat) (attr : Option hnsdv_context_attr) (max_qps mmap_size : Int) :
    ∀ e ∈ (init_dca_context hdr env ctx page_size attr max_qps mmap_size).2.2,
      e = Effect.pthread_spin_init_dca_lock ∨ ∃ offset, e = Effect.mmap_dca offset := by
  cases attr with
  | none =>
    unfold init_dca_context
    dsimp only
    split_ifs <;> simp
  | some a =>
    unfold init_dca_context mmap_dca
    dsimp only
    split_ifs <;> simp

theorem init_dca_context_ret (hdr : Header) (env : Env) (ctx : hns_roce_context)
    (page_size : Nat) (attr : Option hnsdv_context_attr) (max_qps mmap_size : Int) :
    (init_dca_context hdr env ctx page_size attr max_qps mmap_size).1 = 0 ↔
      env.dca_spin_init_ret = 0 := by
  cases attr with
  | none =>
    unfold init_dca_context
    dsimp only
    split_ifs <;> simp_all
  | some a =>
    unfold init_dca_context
    dsimp only
    split_ifs <;> simp_all

theorem hns_roce_mmap_ret (hdr : Header) (env : Env) (hr_dev : hns_roce_device)
    (context : hns_roce_context) :
    (hns_roce_mmap hdr env hr_dev context).1 ≠ 0 ↔
      (env.mmap_uar_ret = MAP_FAILED ∨
        (hr_dev.hw_version = hdr.HNS_ROCE_HW_VER1 ∧ env.mmap_cq_tptr_ret = MAP_FAILED)) := by
  unfold hns_roce_mmap
  dsimp only
  split_ifs <;> simp_all [EINVAL]


theorem alloc_context_fail_early (hdr : Header) (env : Env) (hr_dev : hns_roce_device)
    (ctx_attr : Option hnsdv_context_attr) (halloc : env.alloc_ok = true)
    (hfail : env.get_context_ret ≠ 0 ∨ env.query_device_ret ≠ 0 ∨ env.dca_spin_init_ret ≠ 0) :
    (hns_roce_alloc_context hdr env hr_dev ctx_attr).ret = none ∧
    (hns_roce_alloc_context hdr env hr_dev ctx_attr).unwind
      = [Effect.verbs_uninit_context, Effect.free_context] ∧
    (∀ e ∈ (hns_roce_alloc_context hdr env hr_dev ctx_attr).construct,
      e ≠ Effect.uninit_dca_context ∧ e ≠ Effect.munmap_uar ∧
      e ≠ Effect.munmap_cq_tptr_base) := by
  by_cases hg : env.get_context_ret = 0
  · by_cases hq : env.query_device_ret = 0
    · have hs : env.dca_spin_init_ret ≠ 0 := by tauto
      simp [hns_roce_alloc_context, halloc, hg, hq, init_dca_context_ret, hs, err_free]
      intro a ha
      rcases init_dca_context_trace _ _ _ _ _ _ _ a ha with rfl | ⟨_, rfl⟩ <;> simp
    · simp [hns_roce_alloc_context, halloc, hg, hq, err_free]
  · simp [hns_roce_alloc_context, halloc, hg, err_free]

theorem alloc_context_fail_mmap (hdr : Header) (env : Env) (hr_dev : hns_roce_device)
    (ctx_attr : Option hnsdv_context_attr) (halloc : env.alloc_ok = true)
    (hg : env.get_context_ret = 0) (hq : env.query_device_ret = 0)
    (hs : env.dca_spin_init_ret = 0)
    (hfail : env.mmap_uar_ret = MAP_FAILED ∨
      (env.dev_attrs.hw_ver = hdr.HNS_ROCE_HW_VER1 ∧ env.mmap_cq_tptr_ret = MAP_FAILED)) :
    (hns_roce_alloc_context hdr env hr_dev ctx_attr).ret = none ∧
    ∃ context,
      (hns_roce_alloc_context hdr env hr_dev ctx_attr).unwind
        = Effect.uninit_dca_context ::
            (uninit_dca_context hdr context
              ++ [Effect.verbs_uninit_context, Effect.free_context]) := by
  have hm : ∀ c, (hns_roce_mmap hdr env
      { hr_dev with hw_version := env.dev_attrs.hw_ver } c).1 ≠ 0 :=
    fun c => (hns_roce_mmap_ret hdr env _ c).2 hfail
  simp only [hns_roce_alloc_context, halloc, hg, hq, init_dca_context_ret, hs, dca_free,
    err_free, ne_eq, not_true_eq_false, if_false, Bool.true_eq_false]
  simp only [hm, not_false_eq_true, if_true, true_and]
  exact ⟨_, rfl⟩

theorem alloc_context_succeeds (hdr : Header) (env : Env) (hr_dev : hns_roce_device)
    (ctx_attr : Option hnsdv_context_attr) (halloc : env.alloc_ok = true)
    (hg : env.get_context_ret = 0) (hq : env.query_device_ret = 0)
    (hs : env.dca_spin_init_ret = 0)
    (hok : ¬ (env.mmap_uar_ret = MAP_FAILED ∨
      (env.dev_attrs.hw_ver = hdr.HNS_ROCE_HW_VER1 ∧ env.mmap_cq_tptr_ret = MAP_FAILED))) :
    (∃ context, (hns_roce_alloc_context hdr env hr_dev ctx_attr).ret = some context) ∧
    (hns_roce_alloc_context hdr env hr_dev ctx_attr).unwind = [] := by
  have hm : ∀ c, ¬ (hns_roce_mmap hdr env
      { hr_dev with hw_version := env.dev_attrs.hw_ver } c).1 ≠ 0 :=
    fun c h => hok ((hns_roce_mmap_ret hdr env _ c).1 h)
  simp only [hns_roce_alloc_context, halloc, hg, hq, init_dca_context_ret, hs, dca_free,
    err_free, ne_eq, not_true_eq_false, if_false, Bool.true_eq_false]
  simp only [ne_eq] at hm
  simp only [hm, if_false]
  exact ⟨⟨_, rfl⟩, trivial⟩


/-- C7: in `hns_roce_alloc_context`, with the outcome of every fallible step given by
the environment: a failure of `ibv_cmd_get_context`, `hns_roce_u_query_device` or
`init_dca_context` returns NULL, unwinds with `verbs_uninit_context` and the `free` of
the context only, and no effect of the whole run is a call of `uninit_dca_context` or
an unmapping of the doorbell or legacy region; a failure of `hns_roce_mmap` returns
NULL and unwinds with the call of `uninit_dca_context` first, then
`verbs_uninit_context` and `free`, which is `hns_roce_free_context` without its
doorbell-unmap statements and contains no unmapping of the doorbell or legacy region;
a failed context allocation returns NULL with nothing to unwind, and when no step
fails a context is returned and nothing is unwound. -/
theorem construction_unwind (hdr : Header) (env : Env) (hr_dev : hns_roce_device)
    (ctx_attr : Option hnsdv_context_attr) :
    (env.alloc_ok = true →
      (env.get_context_ret ≠ 0 ∨ env.query_device_ret ≠ 0 ∨ env.dca_spin_init_ret ≠ 0) →
      (hns_roce_alloc_context hdr env hr_dev ctx_attr).ret = none ∧
      (hns_roce_alloc_context hdr env hr_dev ctx_attr).unwind
        = [Effect.verbs_uninit_context, Effect.free_context] ∧
      Effect.uninit_dca_context ∉ (hns_roce_alloc_context hdr env hr_dev ctx_attr).trace ∧
      Effect.munmap_uar ∉ (hns_roce_alloc_context hdr env hr_dev ctx_attr).trace ∧
      Effect.munmap_cq_tptr_base ∉ (hns_roce_alloc_context hdr env hr_dev ctx_attr).trace) ∧
    (env.alloc_ok = true → env.get_context_ret = 0 → env.query_device_ret = 0 →
      env.dca_spin_init_ret = 0 →
      (env.mmap_uar_ret = MAP_FAILED ∨
        (env.dev_attrs.hw_ver = hdr.HNS_ROCE_HW_VER1 ∧ env.mmap_cq_tptr_ret = MAP_FAILED)) →
      (hns_roce_alloc_context hdr env hr_dev ctx_attr).ret = none ∧
      ∃ context,
        (hns_roce_alloc_context hdr env hr_dev ctx_attr).unwind
          = Effect.uninit_dca_context ::
              (uninit_dca_context hdr context
                ++ [Effect.verbs_uninit_context, Effect.free_context]) ∧
        hns_roce_free_context hdr (hns_roce_alloc_context hdr env hr_dev ctx_attr).hr_dev
            context
          = doorbell_unmap hdr (hns_roce_alloc_context hdr env hr_dev ctx_attr).hr_dev
              ++ (hns_roce_alloc_context hdr env hr_dev ctx_attr).unwind ∧
        Effect.munmap_uar ∉ (hns_roce_alloc_context hdr env hr_dev ctx_attr).unwind ∧
        Effect.munmap_cq_tptr_base
          ∉ (hns_roce_alloc_context hdr env hr_dev ctx_attr).unwind) ∧
    (env.alloc_ok = false →
      (hns_roce_alloc_context hdr env hr_dev ctx_attr).ret = none ∧
      (hns_roce_alloc_context hdr env hr_dev ctx_attr).unwind = []) ∧
    (env.alloc_ok = true → env.get_context_ret = 0 → env.query_device_ret = 0 →
      env.dca_spin_init_ret = 0 →
      ¬ (env.mmap_uar_ret = MAP_FAILED ∨
        (env.dev_attrs.hw_ver = hdr.HNS_ROCE_HW_VER1 ∧ env.mmap_cq_tptr_ret = MAP_FAILED)) →
      (∃ context, (hns_roce_alloc_context hdr env hr_dev ctx_attr).ret = some context) ∧
      (hns_roce_alloc_context hdr env hr_dev ctx_attr).unwind = []) := by
  refine ⟨fun halloc hfail => ?_, fun halloc hg hq hs hfail => ?_, fun halloc => ?_,
    fun halloc hg hq hs hok => alloc_context_succeeds hdr env hr_dev ctx_attr halloc hg hq hs hok⟩
  · obtain ⟨h1, h2, h3⟩ := alloc_context_fail_early hdr env hr_dev ctx_attr halloc hfail
    refine ⟨h1, h2, ?_, ?_, ?_⟩
    all_goals
      unfold AllocResult.trace
      rw [h2]
      intro hmem
      rcases List.mem_append.1 hmem with hc | hc
      · have := h3 _ hc
        simp at this
      · simp at hc
  · obtain ⟨h1, context, h2⟩ :=
      alloc_context_fail_mmap hdr env hr_dev ctx_attr halloc hg hq hs hfail
    obtain ⟨n1, n2⟩ := uninit_dca_context_no_doorbell hdr context
    refine ⟨h1, context, h2, ?_, ?_, ?_⟩
    · rw [h2]
      simp [hns_roce_free_context]
    · rw [h2]
      simp [n1]
    · rw [h2]
      simp [n2]
  · simp [hns_roce_alloc_context, halloc]

/-- Witness of C7: hardware version 1 whose legacy region cannot be mapped, with the
DCA capability reported and the status bitmap mapped. -/
theorem construction_unwind_witness :
    (hns_roce_alloc_context hns_header
      { env_ok with
        dev_attrs := { env_ok.dev_attrs with hw_ver := 0x68693036 }
        mmap_cq_tptr_ret := MAP_FAILED } dev_4k (some attr_dca)).ret = none ∧
    (hns_roce_alloc_context hns_header
      { env_ok with
        dev_attrs := { env_ok.dev_attrs with hw_ver := 0x68693036 }
        mmap_cq_tptr_ret := MAP_FAILED } dev_4k (some attr_dca)).trace
      = [Effect.verbs_init_and_alloc_context,
          Effect.ibv_cmd_get_context { comp := 0, dca_max_qps := 0 },
          Effect.pthread_mutex_init_qp_table, Effect.pthread_mutex_init_srq_table,
          Effect.hns_roce_u_query_device, Effect.pthread_spin_init_uar_lock,
          Effect.verbs_set_ops, Effect.verbs_set_ops, Effect.init_dca_context,
          Effect.pthread_spin_init_dca_lock, Effect.mmap_dca 0x100000, Effect.hns_roce_mmap,
          Effect.mmap_uar 0, Effect.mmap_cq_tptr_base 0x1000, Effect.munmap_uar,
          Effect.uninit_dca_context, Effect.pthread_spin_lock_dca_lock,
          Effect.hns_roce_cleanup_dca_mem, Effect.pthread_spin_unlock_dca_lock,
          Effect.munmap_buf_status, Effect.pthread_spin_destroy_dca_lock,
          Effect.verbs_uninit_context, Effect.free_context] ∧
    (hns_roce_alloc_context hns_header { env_ok with get_context_ret := -22 } dev_4k
      (some attr_dca)).trace
      = [Effect.verbs_init_and_alloc_context,
          Effect.ibv_cmd_get_context { comp := 0, dca_max_qps := 0 },
          Effect.verbs_uninit_context, Effect.free_context] :=
  ⟨((construction_unwind hns_header
      { env_ok with
        dev_attrs := { env_ok.dev_attrs with hw_ver := 0x68693036 }
        mmap_cq_tptr_ret := MAP_FAILED } dev_4k (some attr_dca)).2.1 rfl rfl rfl rfl
      (Or.inr ⟨rfl, rfl⟩)).1,
    by decide, by decide⟩

end HnsRoce
